import Mathlib

/-!
# Verification of the one-time gist uploader (`src/lib/actions.ts`)

This file gives a shallow embedding of the server actions of the repository:
token issuance (`generateToken`), token validation (`validateToken`), the
upload orchestrator (`uploadFiles`) with its path-reconstruction grouping,
and the gist relay (`createGist`) with its display-name collision handling
and content encoding.

Conventions of the embedding:
* The MongoDB `tokens` collection is a `List TokenRec` in insertion order;
  `findOne` returns the first matching record and `updateOne` updates the
  first record matching its filter.
* Timestamps are milliseconds since the epoch, as `Int` (mirroring
  `Date.now()` / `getTime()` arithmetic in JavaScript).
* Fallible operations return `Except`; a `try { ... } catch` block in the
  source becomes a `match` on the `Except` of the try-body.
* JavaScript truthiness of an optional string (`if (x) ...` where `x` is
  absent or a string) is modelled by `jsTruthy`: absent and `""` are falsy.
-/

/-- Truthiness of an optional string value in JavaScript: `undefined`/`null`
and the empty string are falsy, every other string is truthy. -/
def jsTruthy : Option String → Bool
  | none => false
  | some s => s ≠ ""

/-- Embedding of `s.includes(c)` for a one-character needle, over the
character list of the string (stated this way so that it evaluates inside
the kernel). -/
def strHasChar (s : String) (c : Char) : Bool := s.data.any (· = c)

/-- Helper for `splitOnChar`: accumulates the current segment (reversed). -/
def splitOnCharAux (sep : Char) : List Char → List Char → List (List Char)
  | [], acc => [acc.reverse]
  | c :: rest, acc =>
    if c = sep then acc.reverse :: splitOnCharAux sep rest []
    else splitOnCharAux sep rest (c :: acc)

/-- Embedding of JavaScript `s.split(sep)` for a one-character separator:
the list of (possibly empty) segments between occurrences of `sep`. -/
def splitOnChar (s : String) (sep : Char) : List String :=
  (splitOnCharAux sep s.data []).map String.mk

/-- Embedding of JavaScript `parts.join(sep)`. -/
def joinSep (sep : String) : List String → String
  | [] => ""
  | [x] => x
  | x :: y :: xs => x ++ sep ++ joinSep sep (y :: xs)

/-- First `n` characters of a string, mirroring `s.substring(0, n)`. -/
def strTake (s : String) (n : Nat) : String := String.mk (s.data.take n)

/-- Record stored in the `tokens` collection. Fields written by
`generateToken` are always present; the audit fields written by the
`updateOne` in `uploadFiles` are `Option`/defaulted until consumption. -/
structure TokenRec where
  token : String
  createdAt : Int
  expiresAt : Int
  used : Bool
  expired : Bool
  gistUrl : Option String
  usedAt : Option Int
  fileCount : Option Nat
  fileNames : List String
  containsFolders : Option Bool
deriving Repr, DecidableEq

/-- Embedding of `db.collection("tokens").findOne({ token, used: false })`:
the first record whose `token` equals the query value and whose `used`
flag is `false`. -/
def findOneUnused : List TokenRec → String → Option TokenRec
  | [], _ => none
  | r :: rest, t =>
    if r.token = t ∧ r.used = false then some r else findOneUnused rest t

/-- Embedding of `updateOne({ token }, { $set: { expired: true } })`:
sets `expired` on the first record whose `token` matches (the filter does
not mention `used`). -/
def markExpired : List TokenRec → String → List TokenRec
  | [], _ => []
  | r :: rest, t =>
    if r.token = t then { r with expired := true } :: rest
    else r :: markExpired rest t

/-- Embedding of `generateToken`: inserts a fresh record with `used=false`,
`expired=false`, `gistUrl=null` and a 24h `expiresAt`, and returns the
token value. The random `nanoid(10)` value and the current time are
parameters of the embedding. -/
def generateToken (store : List TokenRec) (tokenValue : String) (now : Int) :
    String × List TokenRec :=
  (tokenValue,
    store ++ [{ token := tokenValue,
                createdAt := now,
                expiresAt := now + 24 * 60 * 60 * 1000,
                used := false,
                expired := false,
                gistUrl := none,
                usedAt := none,
                fileCount := none,
                fileNames := [],
                containsFolders := none }])

/-- Embedding of `validateToken`. `updateOk` models whether the
best-effort `updateOne` writing the `expired` flag succeeds; when it
throws, the surrounding `catch` rethrows `"Failed to validate token"`,
modelled as `Except.error ()`. On success the result is the returned
boolean together with the (possibly updated) store. -/
def validateToken (store : List TokenRec) (now : Int) (t : String)
    (updateOk : Bool) : Except Unit (Bool × List TokenRec) :=
  match findOneUnused store t with
  | none => Except.ok (false, store)
  | some tokenDoc =>
    let tokenAge : Int := now - tokenDoc.createdAt
    if tokenAge > 24 * 60 * 60 * 1000 then
      if updateOk then Except.ok (false, markExpired store t)
      else Except.error ()
    else Except.ok (true, store)

/-!
## Path reconstruction (`uploadFiles`, lines 84-132)
-/

/-- An uploaded file as seen by the server action: its `name`, the optional
ad-hoc `path` property added by the folder-upload component, and its byte
content. (The `type` and `lastModified` passthrough metadata play no role
in any behaviour modelled here.) -/
structure FileIn where
  name : String
  path : Option String
  content : List Nat
deriving Repr, DecidableEq

/-- Embedding of the `hasFolderStructure` check: some file has a truthy
`path` property, or a name containing `/` or `\`. -/
def hasFolderStructure (files : List FileIn) : Bool :=
  files.any fun f =>
    jsTruthy f.path || strHasChar f.name '/' || strHasChar f.name '\\'

/-- Embedding of the body of the `files.forEach` grouping loop: resolves one
file to its directory path and a fresh file object carrying the bare name
(`new File([file], fileName, ...)` drops the ad-hoc `path` property). -/
def resolveFile (f : FileIn) : String × FileIn :=
  if jsTruthy f.path then
    (f.path.getD "", { name := f.name, path := none, content := f.content })
  else if strHasChar f.name '/' then
    let parts := splitOnChar f.name '/'
    (joinSep "/" parts.dropLast,
      { name := parts.getLastD "", path := none, content := f.content })
  else if strHasChar f.name '\\' then
    let parts := splitOnChar f.name '\\'
    (joinSep "\\" parts.dropLast,
      { name := parts.getLastD "", path := none, content := f.content })
  else
    ("", { name := f.name, path := none, content := f.content })

/-- Name-based resolution rules as worded by the specification: a
`/`-delimited name is split, all segments but the last forming the
directory path; else a `\`-delimited name likewise; else the file belongs
to the root with name unchanged. -/
def resolveNameSpec (f : FileIn) : String × FileIn :=
  if strHasChar f.name '/' then
    let parts := splitOnChar f.name '/'
    (joinSep "/" parts.dropLast,
      { name := parts.getLastD "", path := none, content := f.content })
  else if strHasChar f.name '\\' then
    let parts := splitOnChar f.name '\\'
    (joinSep "\\" parts.dropLast,
      { name := parts.getLastD "", path := none, content := f.content })
  else
    ("", { name := f.name, path := none, content := f.content })

/-- Per-file path resolution as worded by the specification, in priority
order: an explicit non-empty path attribute is used verbatim with the name
kept as-is; otherwise the name-based rules `resolveNameSpec` apply. Stated
separately from `resolveFile` so that agreement of the code with the
specification is a theorem rather than a definition. -/
def resolveFileSpec (f : FileIn) : String × FileIn :=
  match f.path with
  | some p =>
    if p = "" then resolveNameSpec f
    else (p, { name := f.name, path := none, content := f.content })
  | none => resolveNameSpec f

/-- Insert a file into the `filesByPath` map. JavaScript `Map` preserves
insertion order of keys; `get(...).push(...)` appends within a key. -/
def insertGroup (m : List (String × List FileIn)) (p : String) (f : FileIn) :
    List (String × List FileIn) :=
  match m with
  | [] => [(p, [f])]
  | (q, fs) :: rest =>
    if q = p then (q, fs ++ [f]) :: rest
    else (q, fs) :: insertGroup rest p f

/-- Embedding of the `filesByPath` construction in `uploadFiles`: when
folder structure is detected each file is resolved and grouped by its
directory path, otherwise all files are placed under the root key `""`. -/
def groupFilesByPath (files : List FileIn) : List (String × List FileIn) :=
  if hasFolderStructure files then
    files.foldl (fun m f => let r := resolveFile f; insertGroup m r.1 r.2) []
  else
    [("", files)]

/-!
## Content encoding (`createGist`, lines 217-227)

Node's `Buffer.prototype.toString("utf-8")` never throws: byte sequences
that are not valid UTF-8 are decoded lossily, each maximal invalid subpart
becoming the replacement character U+FFFD (WHATWG decoding). The `catch`
branch of the content conversion in `createGist` is therefore unreachable;
the embedding keeps both branches so this is visible.
-/

/-- Whether a byte is a UTF-8 continuation byte (`0x80`-`0xBF`). -/
def isCont (b : Nat) : Bool := 0x80 ≤ b && b ≤ 0xBF

/-- Replacement character U+FFFD emitted for invalid byte sequences. -/
def replChar : Char := Char.ofNat 0xFFFD

/-- Lossy UTF-8 decoding of a byte sequence, following the WHATWG decoder
that Node's `Buffer.prototype.toString("utf-8")` implements: valid
sequences decode to their code point, invalid bytes become U+FFFD, and a
non-continuation byte terminating a partial sequence is reprocessed as a
fresh lead byte. -/
def utf8DecodeLossy : List Nat → List Char
  | [] => []
  | b1 :: bs =>
    if b1 ≤ 0x7F then Char.ofNat b1 :: utf8DecodeLossy bs
    else if b1 < 0xC2 then replChar :: utf8DecodeLossy bs
    else if b1 ≤ 0xDF then
      match bs with
      | [] => [replChar]
      | b2 :: bs2 =>
        if isCont b2 then
          Char.ofNat ((b1 - 0xC0) * 64 + (b2 - 0x80)) :: utf8DecodeLossy bs2
        else replChar :: utf8DecodeLossy (b2 :: bs2)
    else if b1 ≤ 0xEF then
      match bs with
      | [] => [replChar]
      | b2 :: bs2 =>
        let lo := if b1 = 0xE0 then 0xA0 else 0x80
        let hi := if b1 = 0xED then 0x9F else 0xBF
        if lo ≤ b2 ∧ b2 ≤ hi then
          match bs2 with
          | [] => [replChar]
          | b3 :: bs3 =>
            if isCont b3 then
              Char.ofNat ((b1 - 0xE0) * 4096 + (b2 - 0x80) * 64 + (b3 - 0x80))
                :: utf8DecodeLossy bs3
            else replChar :: utf8DecodeLossy (b3 :: bs3)
        else replChar :: utf8DecodeLossy (b2 :: bs2)
    else if b1 ≤ 0xF4 then
      match bs with
      | [] => [replChar]
      | b2 :: bs2 =>
        let lo := if b1 = 0xF0 then 0x90 else 0x80
        let hi := if b1 = 0xF4 then 0x8F else 0xBF
        if lo ≤ b2 ∧ b2 ≤ hi then
          match bs2 with
          | [] => [replChar]
          | b3 :: bs3 =>
            if isCont b3 then
              match bs3 with
              | [] => [replChar]
              | b4 :: bs4 =>
                if isCont b4 then
                  Char.ofNat ((b1 - 0xF0) * 262144 + (b2 - 0x80) * 4096
                      + (b3 - 0x80) * 64 + (b4 - 0x80))
                    :: utf8DecodeLossy bs4
                else replChar :: utf8DecodeLossy (b4 :: bs4)
            else replChar :: utf8DecodeLossy (b3 :: bs3)
        else replChar :: utf8DecodeLossy (b2 :: bs2)
    else replChar :: utf8DecodeLossy bs

/-- Embedding of `buffer.toString("utf-8")`: always succeeds (Node never
throws here), producing the lossy UTF-8 decoding of the bytes. -/
def bufferToStringUtf8 (bytes : List Nat) : Except Unit String :=
  Except.ok (String.mk (utf8DecodeLossy bytes))

/-- Standard base64 alphabet. -/
def b64Alphabet : List Char :=
  "ABCDEFGHIJKLMNOPQRSTUVWXYZabcdefghijklmnopqrstuvwxyz0123456789+/".toList

/-- One base64 digit. -/
def b64Digit (n : Nat) : Char := b64Alphabet.getD n 'A'

/-- Embedding of `buffer.toString("base64")`: standard base64 with `=`
padding. -/
def base64Encode : List Nat → String
  | [] => ""
  | [a] =>
    String.mk [b64Digit (a / 4), b64Digit (a % 4 * 16), '=', '=']
  | [a, b] =>
    String.mk [b64Digit (a / 4), b64Digit (a % 4 * 16 + b / 16),
      b64Digit (b % 16 * 4), '=']
  | a :: b :: c :: rest =>
    String.mk [b64Digit (a / 4), b64Digit (a % 4 * 16 + b / 16),
      b64Digit (b % 16 * 4 + c / 64), b64Digit (c % 64)]
      ++ base64Encode rest

/-- The placeholder built in the `catch` branch of the content conversion:
a binary-file marker wrapping the first 100 characters of the base64
encoding of the bytes. -/
def binaryPlaceholder (bytes : List Nat) : String :=
  "Binary file: " ++ strTake (base64Encode bytes) 100 ++ "..."

/-- Embedding of the content conversion in `createGist`: try
`buffer.toString("utf-8")` and fall back to the base64 placeholder if that
throws (which, per Node semantics, it never does). -/
def contentOf (bytes : List Nat) : String :=
  match bufferToStringUtf8 bytes with
  | Except.ok s => s
  | Except.error _ => binaryPlaceholder bytes

/-!
## Gist relay (`createGist`, lines 162-259)
-/

/-- Lookup in a JavaScript object/record modelled as an association list in
key-insertion order. -/
def lookupRecord {α : Type} (m : List (String × α)) (k : String) : Option α :=
  match m with
  | [] => none
  | (q, v) :: rest => if q = k then some v else lookupRecord rest k

/-- Assignment `obj[k] = v` on a JavaScript object: replaces the value in
place when the key exists, otherwise appends the key at the end. -/
def setRecord {α : Type} (m : List (String × α)) (k : String) (v : α) :
    List (String × α) :=
  match m with
  | [] => [(k, v)]
  | (q, w) :: rest =>
    if q = k then (q, v) :: rest else (q, w) :: setRecord rest k v

/-- Index of the last occurrence of `.` in a character list, mirroring
`String.prototype.lastIndexOf(".")` (with `none` for `-1`). -/
def lastDotIdx : List Char → Option Nat
  | [] => none
  | c :: rest =>
    match lastDotIdx rest with
    | some i => some (i + 1)
    | none => if c = '.' then some 0 else none

/-- Embedding of the duplicate-renaming: insert ` (c)` before the last `.`
of the whole gist file name, or append it when the name has no dot. -/
def insertCounter (name : String) (c : Nat) : String :=
  match lastDotIdx name.data with
  | some i =>
    String.mk (name.data.take i) ++ " (" ++ toString c ++ ")"
      ++ String.mk (name.data.drop i)
  | none => name ++ " (" ++ toString c ++ ")"

/-- Embedding of `path.replace(/\\/g, '/')`. -/
def normalizePath (p : String) : String :=
  String.mk (p.data.map fun c => if c = '\\' then '/' else c)

/-- One iteration of the inner loop of `createGist`: compute the display
name for a file under directory `path`, rename it on a collision with an
already placed entry using the per-name counters, convert the content, and
assign into the `gistFiles` record. The state is the pair of the
`gistFiles` record and the `fileNameCounts` record. -/
def processFile (acc : List (String × String) × List (String × Nat))
    (path : String) (f : FileIn) :
    List (String × String) × List (String × Nat) :=
  let gistFiles := acc.1
  let counts := acc.2
  let gistFileName :=
    if path ≠ "" then normalizePath path ++ "/" ++ f.name else f.name
  match lookupRecord gistFiles gistFileName with
  | none =>
    (setRecord gistFiles gistFileName (contentOf f.content), counts)
  | some _ =>
    let counts1 :=
      match lookupRecord counts gistFileName with
      | none => setRecord counts gistFileName 1
      | some _ => counts
    let c := (lookupRecord counts1 gistFileName).getD 0 + 1
    let counts2 := setRecord counts1 gistFileName c
    let newName := insertCounter gistFileName c
    (setRecord gistFiles newName (contentOf f.content), counts2)

/-- Embedding of the double loop of `createGist` building the `gistFiles`
record sent to the GitHub API, from the `filesByPath` grouping. -/
def buildGistFiles (groups : List (String × List FileIn)) :
    List (String × String) :=
  (groups.foldl
    (fun acc g => g.2.foldl (fun a f => processFile a g.1 f) acc)
    ([], [])).1

/-- The parts of the GitHub API `fetch` response that `createGist` reads:
`response.ok`, `response.statusText`, the `message` field of the JSON error
body (absent when the body has none), and `html_url` of the success body. -/
structure ApiResp where
  ok : Bool
  statusText : String
  message : Option String
  html_url : String
deriving Repr, DecidableEq

/-- JavaScript `a || b` on an optional string: the default is taken when
the value is absent or empty (falsy). -/
def jsOrElse (m : Option String) (d : String) : String :=
  match m with
  | some s => if s = "" then d else s
  | none => d

/-- Embedding of the `try` body of `createGist`: reject when no GitHub
token is configured (empty or absent is falsy), build the gist files, and
interpret the API response: non-2xx raises an error carrying the API's own
message (or the status text), success returns `html_url`. The outbound
`fetch` is modelled by the `resp` parameter. -/
def createGistTry (ghTok : Option String)
    (filesByPath : List (String × List FileIn)) (resp : ApiResp) :
    Except String String :=
  if jsTruthy ghTok = false then
    Except.error "GitHub token is not configured"
  else
    let _gistFiles := buildGistFiles filesByPath
    if resp.ok = false then
      Except.error ("GitHub API error: " ++ jsOrElse resp.message resp.statusText)
    else
      Except.ok resp.html_url

/-- Embedding of `createGist` including its `catch` block: any error from
the try body is logged and replaced by the generic
`"Failed to create gist"`. -/
def createGist (ghTok : Option String)
    (filesByPath : List (String × List FileIn)) (resp : ApiResp) :
    Except String String :=
  match createGistTry ghTok filesByPath resp with
  | Except.ok u => Except.ok u
  | Except.error _ => Except.error "Failed to create gist"

/-!
## Upload orchestrator (`uploadFiles`, lines 67-159)
-/

/-- Embedding of the consumption write in `uploadFiles`:
`updateOne({ token }, { $set: { used: true, gistUrl, usedAt, fileCount,
fileNames, containsFolders } })`. The filter matches on the token value
only — it does not re-check `used: false` — and updates the first matching
record unconditionally. -/
def markUsed (store : List TokenRec) (t : String) (url : String) (now : Int)
    (files : List FileIn) (hasFolders : Bool) : List TokenRec :=
  match store with
  | [] => []
  | r :: rest =>
    if r.token = t then
      { r with used := true,
               gistUrl := some url,
               usedAt := some now,
               fileCount := some files.length,
               fileNames := files.map (·.name),
               containsFolders := some hasFolders } :: rest
    else r :: markUsed rest t url now files hasFolders

/-- Embedding of `uploadFiles`, the upload orchestrator: reject a missing
token or empty file list, look up the token with `findOne({ token,
used: false })` (no recency check — `now` is read only for the `usedAt`
audit field), group the files, relay them via `createGist`, and mark the
token used. Errors rethrown by the `catch` keep their message. -/
def uploadFiles (store : List TokenRec) (now : Int) (t : String)
    (files : List FileIn) (ghTok : Option String) (resp : ApiResp) :
    Except String (String × List TokenRec) :=
  if t = "" ∨ files = [] then Except.error "Missing token or files"
  else
    match findOneUnused store t with
    | none => Except.error "Invalid or already used token"
    | some _ =>
      let hasFolders := hasFolderStructure files
      let filesByPath := groupFilesByPath files
      match createGist ghTok filesByPath resp with
      | Except.error e => Except.error e
      | Except.ok gistUrl =>
        Except.ok (gistUrl, markUsed store t gistUrl now files hasFolders)

/-!
## Interleaving model of two concurrent uploads of the same token

The store-visible steps of one `uploadFiles` call for a token are the read
`findOne({ token, used: false })` and, if the read found a document, the
unconditional write `updateOne({ token }, { $set: { used: true, ... } })`
(with the gist creation in between). A process that passed the read runs
to completion and reports success. Schedules interleave the steps of two
such processes `A` and `B` against a shared store.
-/

/-- Program counter of one consuming process: before its `findOne`, after
it (recording whether an unused document was found), or finished
(recording whether the call reported success). -/
inductive ConsumePhase where
  | start : ConsumePhase
  | read (found : Bool) : ConsumePhase
  | done (success : Bool) : ConsumePhase
deriving Repr, DecidableEq

/-- Shared store plus the program counters of the two processes. -/
structure TwoConsumeState where
  store : List TokenRec
  pa : ConsumePhase
  pb : ConsumePhase
deriving Repr, DecidableEq

/-- One store-visible step of a consuming process for token `t`: the
`findOne` read, then — only if the read had found an unused document — the
unconditional `updateOne` write marking the token used, after which the
call reports success. A process whose read found nothing throws
`"Invalid or already used token"` and reports failure. -/
def consumeStep (t : String) (store : List TokenRec) :
    ConsumePhase → ConsumePhase × List TokenRec
  | ConsumePhase.start =>
    (ConsumePhase.read (findOneUnused store t).isSome, store)
  | ConsumePhase.read true =>
    (ConsumePhase.done true, markUsed store t "gistUrl" 0 [] false)
  | ConsumePhase.read false => (ConsumePhase.done false, store)
  | ConsumePhase.done r => (ConsumePhase.done r, store)

/-- Run a schedule over the two processes: `true` steps process `A`,
`false` steps process `B`. -/
def runTwoConsumes (t : String) :
    List Bool → TwoConsumeState → TwoConsumeState
  | [], s => s
  | a :: rest, s =>
    if a then
      let r := consumeStep t s.store s.pa
      runTwoConsumes t rest { store := r.2, pa := r.1, pb := s.pb }
    else
      let r := consumeStep t s.store s.pb
      runTwoConsumes t rest { store := r.2, pa := s.pa, pb := r.1 }

/-!
## Concrete inputs used by the theorems
-/

/-- A fresh unused token record issued at time 0. -/
def freshTok : TokenRec :=
  (generateToken [] "tok1234567" 0).2.getLastD
    { token := "", createdAt := 0, expiresAt := 0, used := false,
      expired := false, gistUrl := none, usedAt := none, fileCount := none,
      fileNames := [], containsFolders := none }

/-- A successful GitHub API response. -/
def okResp : ApiResp :=
  { ok := true, statusText := "Created", message := none,
    html_url := "https://gist.github.com/u/abc" }

/-- A rejecting GitHub API response whose error body carries a message. -/
def errResp : ApiResp :=
  { ok := false, statusText := "Unauthorized",
    message := some "Bad credentials", html_url := "" }

/-- Whether `pre` is a prefix of the character list `l`. -/
def leadsWith : List Char → List Char → Bool
  | [], _ => true
  | _ :: _, [] => false
  | a :: as, b :: bs => a = b && leadsWith as bs

/-- Whether `sub` occurs as a contiguous sublist of `l`. -/
def occursIn (sub : List Char) : List Char → Bool
  | [] => leadsWith sub []
  | c :: rest => leadsWith sub (c :: rest) || occursIn sub rest

/-- Whether `sub` occurs as a substring of `s`. -/
def strContains (s sub : String) : Bool := occursIn sub.data s.data

/-- A consumed copy of `freshTok`. -/
def usedTok : TokenRec := { freshTok with used := true }

/-- A copy of `freshTok` on which a previous expiry observation persisted
`expired = true` while the token remained unused. -/
def expiredFlagTok : TokenRec := { freshTok with expired := true }

/-- A one-byte text file used as upload payload in concrete runs. -/
def fileA : FileIn := { name := "a.txt", path := none, content := [97] }

/-- The record `freshTok` after being consumed at 25 hours (90000000 ms)
with the single file `fileA` and the URL of `okResp`. -/
def consumedAt25h : TokenRec :=
  { freshTok with used := true,
                  gistUrl := some "https://gist.github.com/u/abc",
                  usedAt := some 90000000,
                  fileCount := some 1,
                  fileNames := ["a.txt"],
                  containsFolders := some false }

/-!
## Theorems
-/

/-- Helper: when every record carrying the queried token value is already
used, the `findOne({ token, used: false })` lookup finds nothing. -/
theorem findOneUnused_eq_none_of_used (store : List TokenRec) (t : String)
    (h : ∀ r ∈ store, r.token = t → r.used = true) :
    findOneUnused store t = none := by
  induction store with
  | nil => rfl
  | cons r rest ih =>
    have hr := h r (List.mem_cons_self r rest)
    have hrest : ∀ x ∈ rest, x.token = t → x.used = true :=
      fun x hx => h x (List.mem_cons_of_mem r hx)
    unfold findOneUnused
    split
    · next hcond =>
      rw [hr hcond.1] at hcond
      exact absurd hcond.2 (by simp)
    · exact ih hrest

/-- C1: the specification claims that two concurrent consumes of the same
token cannot both succeed because the `used=false → used=true` transition
is an atomic conditional update. In the code the transition is a separate
`findOne({ token, used: false })` read followed by an unconditional
`updateOne({ token })` write: under the interleaved schedule read-A,
read-B, write-A, write-B both processes consuming the same fresh token
report success (first two conjuncts), whereas under the serial schedule
the second process fails (third conjunct). -/
theorem double_consume_both_succeed :
    (runTwoConsumes "tok1234567" [true, false, true, false]
        { store := [freshTok], pa := ConsumePhase.start,
          pb := ConsumePhase.start }).pa = ConsumePhase.done true ∧
    (runTwoConsumes "tok1234567" [true, false, true, false]
        { store := [freshTok], pa := ConsumePhase.start,
          pb := ConsumePhase.start }).pb = ConsumePhase.done true ∧
    (runTwoConsumes "tok1234567" [true, true, false, false]
        { store := [freshTok], pa := ConsumePhase.start,
          pb := ConsumePhase.start }).pb = ConsumePhase.done false :=
  ⟨rfl, rfl, rfl⟩

/-- C2: the specification claims the upload orchestrator re-checks token
recency and rejects a 25-hour-old unused token before relaying. In the
code `validateToken` does return false at 25 hours (first conjunct), but
`uploadFiles` checks only `{ token, used: false }` and never reads the
clock for validation, so the subsequent consume of the same 25-hour-old
token succeeds end to end and marks it used (second conjunct). -/
theorem expired_token_upload_succeeds :
    validateToken [freshTok] 90000000 "tok1234567" true
      = Except.ok (false, [{ freshTok with expired := true }]) ∧
    uploadFiles [freshTok] 90000000 "tok1234567" [fileA] (some "gh") okResp
      = Except.ok ("https://gist.github.com/u/abc", [consumedAt25h]) :=
  ⟨rfl, rfl⟩

/-- C3: `validate` returns false for every token value all of whose records
are already used — regardless of elapsed time `now` — and for a token value
with no record in the store (the hypothesis then holds vacuously). -/
theorem validate_false_when_used_or_unknown (store : List TokenRec)
    (now : Int) (t : String) (updateOk : Bool)
    (h : ∀ r ∈ store, r.token = t → r.used = true) :
    validateToken store now t updateOk = Except.ok (false, store) := by
  unfold validateToken
  rw [findOneUnused_eq_none_of_used store t h]

/-- Witness for C3: validating the consumed token `usedTok` returns false. -/
theorem validate_false_when_used_or_unknown_w :
    validateToken [usedTok] 123 "tok1234567" true
      = Except.ok (false, [usedTok]) :=
  validate_false_when_used_or_unknown [usedTok] 123 "tok1234567" true
    (by decide)

/-- C4 counterexample: validating a 25-hour-old unused token when the
best-effort `expired` flag write fails does not return false — the `catch`
block of `validateToken` turns the failed write into a thrown
`"Failed to validate token"` error. -/
theorem validate_flag_write_failure_errors :
    validateToken [freshTok] 90000000 "tok1234567" false = Except.error () :=
  rfl

/-- C4 amended: for an existing unused token whose elapsed time exceeds 24
hours, `validate` returns false when the `expired` flag write succeeds; when
that write fails, `validateToken` raises an error instead of returning
false. -/
theorem validate_time_expired_result (store : List TokenRec) (now : Int)
    (t : String) (doc : TokenRec)
    (h1 : findOneUnused store t = some doc)
    (h2 : now - doc.createdAt > 24 * 60 * 60 * 1000) :
    validateToken store now t true = Except.ok (false, markExpired store t) ∧
    validateToken store now t false = Except.error () := by
  have h3 : (86400000 : Int) + doc.createdAt < now := by omega
  unfold validateToken
  rw [h1]
  simp [h2, h3]

/-- Witness for C4 amended: the 25-hour-old token `freshTok` at
`now = 90000000`. -/
theorem validate_time_expired_result_w :
    validateToken [freshTok] 90000000 "tok1234567" true
        = Except.ok (false, markExpired [freshTok] "tok1234567") ∧
    validateToken [freshTok] 90000000 "tok1234567" false = Except.error () :=
  validate_time_expired_result [freshTok] 90000000 "tok1234567" freshTok
    (by decide) (by decide)

/-- C5: per-file path resolution of the code agrees with the priority
order stated by the specification (explicit non-empty path attribute
verbatim, else `/`-split, else `\`-split, else root with name unchanged),
and the files named `a/b/c.txt`, `a/b/d.txt`, `e.txt` group to
`{"a/b": [c.txt, d.txt], "": [e.txt]}`. -/
theorem path_reconstruction_priority :
    (∀ f : FileIn, resolveFile f = resolveFileSpec f) ∧
    groupFilesByPath
        [{ name := "a/b/c.txt", path := none, content := [99] },
         { name := "a/b/d.txt", path := none, content := [100] },
         { name := "e.txt", path := none, content := [101] }]
      = [("a/b", [{ name := "c.txt", path := none, content := [99] },
                  { name := "d.txt", path := none, content := [100] }]),
         ("", [{ name := "e.txt", path := none, content := [101] }])] := by
  constructor
  · intro f
    obtain ⟨n, p, c⟩ := f
    cases p with
    | none => rfl
    | some q =>
      by_cases hq : q = ""
      · subst hq; rfl
      · simp [resolveFile, resolveFileSpec, resolveNameSpec, jsTruthy, hq]
  · rfl

/-- C6: when a computed display name collides with one already placed, the
later entry is renamed with an occurrence counter inserted before the last
dot of the display name (appended when the name has no dot): two files both
resolving to display name `x/notes.txt` produce the entries `x/notes.txt`
and `x/notes (2).txt` in insertion order, and the renaming function sends
`notes.txt` to `notes (2).txt` and the extensionless `notes` to
`notes (2)`. -/
theorem display_name_collision_rename :
    buildGistFiles (groupFilesByPath
        [{ name := "x/notes.txt", path := none, content := [49] },
         { name := "notes.txt", path := some "x", content := [50] }])
      = [("x/notes.txt", "1"), ("x/notes (2).txt", "2")] ∧
    insertCounter "notes.txt" 2 = "notes (2).txt" ∧
    insertCounter "notes" 2 = "notes (2)" :=
  ⟨rfl, rfl, rfl⟩

/-- C7: the specification claims a file whose bytes are not cleanly
decodable as UTF-8 is sent as a placeholder beginning with a binary-file
marker. In the code `buffer.toString("utf-8")` never throws — the invalid
byte `0xFF` decodes to the replacement character U+FFFD — so the `catch`
building the placeholder is unreachable and the content sent for such a
file is the mangled lossy decoding, which does not start with the
`"Binary file:"` marker. -/
theorem binary_file_content_mangled :
    bufferToStringUtf8 [255] = Except.ok (String.mk [Char.ofNat 0xFFFD]) ∧
    contentOf [255] = String.mk [Char.ofNat 0xFFFD] ∧
    strTake (contentOf [255]) 12 ≠ "Binary file:" :=
  ⟨rfl, rfl, by decide⟩

/-- C8 counterexample: on a non-2xx response whose body carries the message
`Bad credentials`, the error surfaced by `createGist` to its caller is the
generic `"Failed to create gist"`, which does not contain the API's
message. -/
theorem relay_error_message_not_surfaced :
    createGist (some "g") (groupFilesByPath [fileA]) errResp
      = Except.error "Failed to create gist" ∧
    strContains "Failed to create gist" "Bad credentials" = false :=
  ⟨rfl, by decide⟩

/-- C8 amended: whenever the external API responds with a non-2xx status
(and a GitHub token is configured), the relay fails; inside the `try` body
an error carrying the API's own message when available (else the status
text) is raised and logged, but the `catch` block replaces it, so the
error surfaced to the caller is always the generic
`"Failed to create gist"`. -/
theorem relay_error_generic_message (ghTok : Option String)
    (filesByPath : List (String × List FileIn)) (resp : ApiResp)
    (hg : jsTruthy ghTok = true) (hr : resp.ok = false) :
    createGistTry ghTok filesByPath resp
      = Except.error
          ("GitHub API error: " ++ jsOrElse resp.message resp.statusText) ∧
    createGist ghTok filesByPath resp
      = Except.error "Failed to create gist" := by
  unfold createGist createGistTry
  simp [hg, hr]

/-- Witness for C8 amended: the configured token `"g"`, the singleton
upload `fileA`, and the rejecting response `errResp`, whose body message
`Bad credentials` is raised internally while the caller sees the generic
error. -/
theorem relay_error_generic_message_w :
    createGistTry (some "g") (groupFilesByPath [fileA]) errResp
      = Except.error
          ("GitHub API error: " ++ jsOrElse errResp.message errResp.statusText) ∧
    createGist (some "g") (groupFilesByPath [fileA]) errResp
      = Except.error "Failed to create gist" :=
  relay_error_generic_message (some "g") (groupFilesByPath [fileA]) errResp
    (by decide) (by decide)

/-- C9: validation never reads the stored `expired` flag — for a token
record found unused whose elapsed time is at most 24 hours, `validate`
returns true, whatever the record's `expired` field holds (the hypotheses
say nothing about it; the witness instantiates it with `expired = true`). -/
theorem validate_ignores_expired_flag (store : List TokenRec) (now : Int)
    (t : String) (updateOk : Bool) (doc : TokenRec)
    (h1 : findOneUnused store t = some doc)
    (h2 : now - doc.createdAt ≤ 24 * 60 * 60 * 1000) :
    validateToken store now t updateOk = Except.ok (true, store) := by
  have h3 : ¬ now - doc.createdAt > 24 * 60 * 60 * 1000 := by omega
  have h4 : ¬ (86400000 : Int) + doc.createdAt < now := by omega
  unfold validateToken
  rw [h1]
  simp [h3, h4]
  intro h5
  exfalso
  omega

/-- Witness for C9: a token with `expired = true` already persisted,
validated at exactly the 24-hour boundary, is still reported valid. -/
theorem validate_ignores_expired_flag_w :
    validateToken [expiredFlagTok] 86400000 "tok1234567" true
      = Except.ok (true, [expiredFlagTok]) :=
  validate_ignores_expired_flag [expiredFlagTok] 86400000 "tok1234567" true
    expiredFlagTok (by decide) (by decide)

/-- C10: collision renaming does not re-check the renamed name — with files
whose display names are `notes.txt`, `notes (2).txt`, `notes.txt` in that
order, the third file is renamed to `notes (2).txt`, silently overwriting
the second file's entry (which held content `"2"`, now `"3"`), and the
resulting mapping has fewer entries than the three files uploaded. -/
theorem collision_rename_overwrites :
    buildGistFiles (groupFilesByPath
        [{ name := "notes.txt", path := none, content := [49] },
         { name := "notes (2).txt", path := none, content := [50] },
         { name := "notes.txt", path := none, content := [51] }])
      = [("notes.txt", "1"), ("notes (2).txt", "3")] ∧
    (buildGistFiles (groupFilesByPath
        [{ name := "notes.txt", path := none, content := [49] },
         { name := "notes (2).txt", path := none, content := [50] },
         { name := "notes.txt", path := none, content := [51] }])).length
      < 3 :=
  ⟨rfl, by decide⟩
